import Mathlib

set_option maxRecDepth 8000

/-!
Verification development for the `inference-optimizer` repository.

The repository has two source files:

* `src/app.py` — a web service whose core is `analyze_data(logs)` together
  with the helper `should_downgrade_to_gpt35_analysis(log)`;
* `src/analyze_local.py` — a CLI tool whose core is `analyze_csv(filename)`
  together with the helper `should_downgrade(prompt, tokens)`.

Both cores are shallowly embedded below.  Modelling conventions:

* Python strings (prompts, model names) are `List Char`; slicing `s[:n]` is
  `List.take n`, `len` is `List.length`, `str.lower()` is `Char.toLower`
  mapped over the list (the ASCII case mapping — all inputs in scope are
  ASCII), substring containment `a in s` is `containsSub`, and
  `s.startswith(p)` is `List.isPrefixOf p s`.
* Python float amounts are modelled as exact rationals `ℚ`, and Python's
  `round(x, n)` as round-half-to-even on rationals (`pyRound`).  Every
  concrete input used below keeps all rounded quantities away from exact
  halfway points, so the rational model and the binary-float model round
  identically there.
* `collections.Counter` iterates keys in first-occurrence order; this is
  `counterKeys`.
* Python's stable `list.sort(key=..., reverse=True)` is the stable
  descending insertion sort `sortByDesc`.
* An early `return` that produces no report, and an uncaught
  `ZeroDivisionError`, are both modelled with `Option` (`none` = no value
  produced); the accompanying definitions say which is which.
-/

namespace InfOpt

/-! ### Character helpers -/

/-- Whitespace characters matched by Python's regex class `\s`
(space, tab, newline, carriage return, vertical tab, form feed). -/
def pyIsSpace (c : Char) : Bool :=
  c = ' ' || c = '\t' || c = '\n' || c = '\r' || c = '\x0b' || c = '\x0c'

/-- ASCII digit, Python's regex class `\d` on the ASCII inputs in scope
(character codes 48–57). -/
def isDigitChar (c : Char) : Bool :=
  48 ≤ c.toNat && c.toNat ≤ 57

/-- Characters allowed by the regex `^[\d\+\-\*/\s]+$` used by both
downgrade heuristics (`app.py` line 38, `analyze_local.py` line 31). -/
def isArithChar (c : Char) : Bool :=
  isDigitChar c || c = '+' || c = '-' || c = '*' || c = '/' || pyIsSpace c

/-- Python `str.lower()` (ASCII case mapping, `Char.toLower` on each
character). -/
def lowerStr (s : List Char) : List Char := s.map Char.toLower

/-- Python `any(s.startswith(q) for q in pats)`. -/
def startsWithAny (s : List Char) (pats : List (List Char)) : Bool :=
  pats.any (fun p => p.isPrefixOf s)

/-- Python substring containment `pat in s`. -/
def containsSub : List Char → List Char → Bool
  | [], pat => pat.isEmpty
  | c :: t, pat => pat.isPrefixOf (c :: t) || containsSub t pat

/-- Match of the anchored regex `^[\d\+\-\*/\s]+$`: at least one character,
every character a digit, an arithmetic operator or whitespace.  (Newline is
in the class itself, so the `$`-before-trailing-newline subtlety of Python
regexes changes nothing.) -/
def isArithPrompt (s : List Char) : Bool :=
  !s.isEmpty && s.all isArithChar

/-! ### Rounding -/

/-- Nearest integer with ties to even, on rationals: `Int.fdiv q.num q.den`
is the floor of `q`, and the fractional part decides the direction.  This is
the value Python's banker-rounding `round` computes (on the exact rational
the float holds). -/
def roundHalfEven (q : ℚ) : ℤ :=
  if q - (Int.fdiv q.num q.den : ℚ) < 1/2 then Int.fdiv q.num q.den
  else if 1/2 < q - (Int.fdiv q.num q.den : ℚ) then Int.fdiv q.num q.den + 1
  else if Int.fdiv q.num q.den % 2 = 0 then Int.fdiv q.num q.den
  else Int.fdiv q.num q.den + 1

/-- Python `round(q, n)`: round half to even at `n` decimal places. -/
def pyRound (q : ℚ) (n : ℕ) : ℚ :=
  ((roundHalfEven (q * 10 ^ n) : ℚ)) / 10 ^ n

/-! ### Stable descending sort (Python `list.sort(key=..., reverse=True)`) -/

/-- Insert `x` into a descending-sorted list, after every element whose key
is greater than or equal to `key x` (so that a later element never jumps
ahead of an equal earlier one — the stability guarantee of Python's sort). -/
def insertDesc {α : Type} (key : α → ℚ) (x : α) : List α → List α
  | [] => [x]
  | y :: ys => if key y < key x then x :: y :: ys else y :: insertDesc key x ys

/-- Stable sort in descending key order. -/
def sortByDesc {α : Type} (key : α → ℚ) (l : List α) : List α :=
  l.foldl (fun acc x => insertDesc key x acc) []

/-! ### Data model -/

/-- One logged API call, as normalized by both loaders (`app.py` lines
157–164, `analyze_local.py` lines 54–61): timestamp string, prompt text,
model name, combined token count, cost in USD. -/
structure CallRecord where
  timestamp : String
  prompt : List Char
  model : List Char
  tokens : ℕ
  cost : ℚ
deriving DecidableEq

/-- One entry of `duplicate_prompts` (`app.py` lines 76–81). -/
structure DupFinding where
  prompt : List Char
  count : ℕ
  savings : ℚ
  cost_per_call : ℚ
deriving DecidableEq

/-- One entry of `downgradeable_calls` (`app.py` lines 94–100). -/
structure DowngradeFinding where
  prompt : List Char
  current_cost : ℚ
  new_cost : ℚ
  savings : ℚ
  reason : String
deriving DecidableEq

/-- One entry of `verbose_prompts` (`app.py` lines 109–114). -/
structure VerboseFinding where
  prompt_preview : List Char
  length : ℕ
  cost : ℚ
  timestamp : String
deriving DecidableEq

/-- The dictionary returned by `analyze_data` (`app.py` lines 44–58 and
123–136).  `batchable_calls` is always the empty list in the source, so its
element type is irrelevant; `Unit` is used. -/
structure Report where
  total_cost : ℚ
  total_calls : ℕ
  cache_savings : ℚ
  routing_savings : ℚ
  prompt_opt_savings : ℚ
  batch_savings : ℚ
  total_savings : ℚ
  savings_percent : ℚ
  duplicate_prompts : List DupFinding
  downgradeable_calls : List DowngradeFinding
  verbose_prompts : List VerboseFinding
  batchable_calls : List Unit
deriving DecidableEq

/-! ### Downgrade heuristics -/

/-- Search key `gpt-4` (both variants, `app.py` line 90,
`analyze_local.py` line 106). -/
def gpt4Key : List Char := "gpt-4".toList

/-- Keyword `translate`. -/
def translateKey : List Char := "translate".toList

/-- Keyword `translation`. -/
def translationKey : List Char := "translation".toList

/-- Question-opener list of the web variant (`app.py` line 32); it omits
`what are`. -/
def webStartList : List (List Char) :=
  ["what is".toList, "how do".toList, "why".toList, "when".toList,
   "who".toList, "where".toList]

/-- Question-opener list of the CLI variant (`analyze_local.py` line 25);
it includes `what are`. -/
def cliStartList : List (List Char) :=
  ["what is".toList, "what are".toList, "how do".toList, "why".toList,
   "when".toList, "who".toList, "where".toList]

/-- Web variant `should_downgrade_to_gpt35_analysis` (`app.py` lines
24–41): lower-case the prompt, then return on the first rule that fires. -/
def shouldDowngradeWeb (prompt : List Char) (tokens : ℕ) : Bool :=
  let p := lowerStr prompt
  if tokens < 100 then true
  else if startsWithAny p webStartList then true
  else if containsSub p translateKey || containsSub p translationKey then true
  else if isArithPrompt p then true
  else false

/-- CLI variant `should_downgrade` (`analyze_local.py` lines 18–34); same
rules, with the larger opener list. -/
def shouldDowngradeCli (prompt : List Char) (tokens : ℕ) : Bool :=
  let p := lowerStr prompt
  if tokens < 100 then true
  else if startsWithAny p cliStartList then true
  else if containsSub p translateKey || containsSub p translationKey then true
  else if isArithPrompt p then true
  else false

/-- Web routing-pass guard (`app.py` line 90):
`'gpt-4' in log['model'].lower() and should_downgrade_to_gpt35_analysis(log)`. -/
def webFlagged (log : CallRecord) : Bool :=
  containsSub (lowerStr log.model) gpt4Key && shouldDowngradeWeb log.prompt log.tokens

/-- CLI routing-pass guard (`analyze_local.py` line 106). -/
def cliFlagged (log : CallRecord) : Bool :=
  containsSub (lowerStr log.model) gpt4Key && shouldDowngradeCli log.prompt log.tokens

/-! ### Shared aggregation passes -/

/-- Total spend `sum(float(log['cost']) for log in logs)` (`app.py` line 60,
`analyze_local.py` line 67). -/
def totalCostRaw (logs : List CallRecord) : ℚ :=
  (logs.map (fun log => log.cost)).sum

/-- The 50-character fingerprints `[log['prompt'][:50] for log in logs]`
(`app.py` line 64, `analyze_local.py` line 78). -/
def promptKeys (logs : List CallRecord) : List (List Char) :=
  logs.map (fun log => log.prompt.take 50)

/-- Key insertion preserving first-occurrence order (Python `dict`). -/
def insertKey (acc : List (List Char)) (k : List Char) : List (List Char) :=
  if k ∈ acc then acc else acc ++ [k]

/-- Distinct keys of a `collections.Counter`, in first-occurrence order. -/
def counterKeys (ks : List (List Char)) : List (List Char) :=
  ks.foldl insertKey []

/-- Cost of the first record whose fingerprint is `k`
(`matching_logs[0]['cost']` in `app.py` line 72, the `next(...)` generator
in `analyze_local.py` line 84). -/
def firstCostFor (logs : List CallRecord) (k : List Char) : ℚ :=
  match logs.find? (fun log => log.prompt.take 50 = k) with
  | some log => log.cost
  | none => 0

/-- Fingerprints occurring more than once, in counter order (`count > 1`
filter of `app.py` line 70, `analyze_local.py` line 80). -/
def dupKeys (logs : List CallRecord) : List (List Char) :=
  (counterKeys (promptKeys logs)).filter (fun k => 1 < (promptKeys logs).count k)

/-- Savings booked for one duplicate group:
`original_cost * (count - 1)` (`app.py` line 73, `analyze_local.py` line 85). -/
def groupSavings (logs : List CallRecord) (k : List Char) : ℚ :=
  firstCostFor logs k * (((promptKeys logs).count k : ℚ) - 1)

/-- Accumulated `cache_savings` (`app.py` lines 68–74, `analyze_local.py`
lines 82–85). -/
def cacheSavings (logs : List CallRecord) : ℚ :=
  ((dupKeys logs).map (groupSavings logs)).sum

/-- One `duplicate_prompts` entry (`app.py` lines 76–81). -/
def dupFinding (logs : List CallRecord) (k : List Char) : DupFinding :=
  { prompt := k
    count := (promptKeys logs).count k
    savings := pyRound (groupSavings logs k) 2
    cost_per_call := pyRound (firstCostFor logs k) 4 }

/-- The `duplicate_prompts` list after the descending `savings` sort
(`app.py` line 83). -/
def duplicateFindings (logs : List CallRecord) : List DupFinding :=
  sortByDesc (fun f => f.savings) ((dupKeys logs).map (dupFinding logs))

/-- Accumulated web `routing_savings` (`app.py` lines 89–92). -/
def routingSavingsWeb (logs : List CallRecord) : ℚ :=
  ((logs.filter webFlagged).map (fun log => log.cost * (9/10))).sum

/-- One `downgradeable_calls` entry (`app.py` lines 94–100). -/
def downgradeFindingWeb (log : CallRecord) : DowngradeFinding :=
  { prompt := log.prompt.take 60
    current_cost := pyRound log.cost 4
    new_cost := pyRound (log.cost * (1/10)) 4
    savings := pyRound (log.cost * (9/10)) 4
    reason := if log.tokens < 100 then "Simple query" else "Short prompt" }

/-- The `downgradeable_calls` list after the descending `savings` sort
(`app.py` line 102). -/
def downgradeFindings (logs : List CallRecord) : List DowngradeFinding :=
  sortByDesc (fun f => f.savings) ((logs.filter webFlagged).map downgradeFindingWeb)

/-- Verbose-prompt guard `len(log['prompt']) > 500` (`app.py` lines
107–108, `analyze_local.py` line 129). -/
def verboseFlag (log : CallRecord) : Bool :=
  500 < log.prompt.length

/-- One `verbose_prompts` entry (`app.py` lines 109–114). -/
def verboseFinding (log : CallRecord) : VerboseFinding :=
  { prompt_preview := log.prompt.take 80 ++ "...".toList
    length := log.prompt.length
    cost := log.cost
    timestamp := log.timestamp }

/-- The `verbose_prompts` list after the descending `cost` sort (`app.py`
line 115). -/
def verboseFindings (logs : List CallRecord) : List VerboseFinding :=
  sortByDesc (fun f => f.cost) ((logs.filter verboseFlag).map verboseFinding)

/-- Web `prompt_opt_savings`, summed over the sorted verbose list
(`app.py` line 116). -/
def promptOptSavings (logs : List CallRecord) : ℚ :=
  ((verboseFindings logs).map (fun v => v.cost * (3/10))).sum

/-- Flat batching estimate `total_cost * 0.12` (`app.py` line 119,
`analyze_local.py` line 140). -/
def batchSavingsRaw (logs : List CallRecord) : ℚ :=
  totalCostRaw logs * (12/100)

/-- Web pre-rounding grand total (`app.py` line 121). -/
def totalSavingsRaw (logs : List CallRecord) : ℚ :=
  cacheSavings logs + routingSavingsWeb logs + promptOptSavings logs + batchSavingsRaw logs

/-- The all-zero report returned for empty input (`app.py` lines 44–58). -/
def zeroReport : Report :=
  { total_cost := 0
    total_calls := 0
    cache_savings := 0
    routing_savings := 0
    prompt_opt_savings := 0
    batch_savings := 0
    total_savings := 0
    savings_percent := 0
    duplicate_prompts := []
    downgradeable_calls := []
    verbose_prompts := []
    batchable_calls := [] }

/-- The web analysis `analyze_data(logs)` (`app.py` lines 43–136). -/
def analyzeData (logs : List CallRecord) : Report :=
  if logs.isEmpty then zeroReport
  else
    { total_cost := pyRound (totalCostRaw logs) 2
      total_calls := logs.length
      cache_savings := pyRound (cacheSavings logs) 2
      routing_savings := pyRound (routingSavingsWeb logs) 2
      prompt_opt_savings := pyRound (promptOptSavings logs) 2
      batch_savings := pyRound (batchSavingsRaw logs) 2
      total_savings := pyRound (totalSavingsRaw logs) 2
      savings_percent :=
        if 0 < totalCostRaw logs
        then pyRound (totalSavingsRaw logs / totalCostRaw logs * 100) 1
        else 0
      duplicate_prompts := (duplicateFindings logs).take 10
      downgradeable_calls := (downgradeFindings logs).take 10
      verbose_prompts := (verboseFindings logs).take 10
      batchable_calls := [] }

/-! ### CLI variant (`analyze_local.py`) -/

/-- Accumulated CLI `routing_savings` (`analyze_local.py` lines 102–108). -/
def routingSavingsCli (logs : List CallRecord) : ℚ :=
  ((logs.filter cliFlagged).map (fun log => log.cost * (9/10))).sum

/-- One CLI `downgradeable` entry (`analyze_local.py` lines 109–113):
unrounded cost and savings. -/
structure CliDowngradeFinding where
  prompt : List Char
  cost : ℚ
  savings : ℚ
deriving DecidableEq

/-- Construction of a CLI `downgradeable` entry. -/
def cliDowngradeFinding (log : CallRecord) : CliDowngradeFinding :=
  { prompt := log.prompt.take 60
    cost := log.cost
    savings := log.cost * (9/10) }

/-- CLI `prompt_savings`, summed directly over the verbose records
(`analyze_local.py` lines 129–130). -/
def promptOptSavingsCli (logs : List CallRecord) : ℚ :=
  ((logs.filter verboseFlag).map (fun log => log.cost * (3/10))).sum

/-- The numeric quantities `analyze_csv` accumulates and prints
(`analyze_local.py` lines 67–145); the CLI never rounds them before the
formatted print. -/
structure CliTotals where
  total_cost : ℚ
  total_calls : ℕ
  cache_savings : ℚ
  routing_savings : ℚ
  prompt_savings : ℚ
  batch_savings : ℚ
  total_savings : ℚ
deriving DecidableEq

/-- CLI aggregate computation on the parsed records. -/
def cliTotals (logs : List CallRecord) : CliTotals :=
  { total_cost := totalCostRaw logs
    total_calls := logs.length
    cache_savings := cacheSavings logs
    routing_savings := routingSavingsCli logs
    prompt_savings := promptOptSavingsCli logs
    batch_savings := totalCostRaw logs * (12/100)
    total_savings :=
      cacheSavings logs + routingSavingsCli logs + promptOptSavingsCli logs
        + totalCostRaw logs * (12/100) }

/-- The CLI analysis on the parsed records: on empty input `analyze_csv`
prints `No data found in CSV` and returns early with no report
(`analyze_local.py` lines 63–65), modelled by `none`. -/
def analyzeCsvReport (logs : List CallRecord) : Option CliTotals :=
  if logs.isEmpty then none else some (cliTotals logs)

/-- The percent the CLI prints at `analyze_local.py` line 151:
`total_savings/total_cost*100` with no guard.  When `total_cost = 0` the
Python expression raises `ZeroDivisionError`; the raised fault is modelled
by `none`. -/
def cliSavingsPercent (logs : List CallRecord) : Option ℚ :=
  if (cliTotals logs).total_cost = 0 then none
  else some ((cliTotals logs).total_savings / (cliTotals logs).total_cost * 100)

/-! ### Lemmas about the stable descending sort -/

theorem insertDesc_perm {α : Type} (key : α → ℚ) (x : α) (l : List α) :
    List.Perm (insertDesc key x l) (x :: l) := by
  induction l with
  | nil => simp [insertDesc]
  | cons y ys ih =>
    by_cases h : key y < key x
    · simp [insertDesc, h]
    · simp only [insertDesc, if_neg h]
      exact (ih.cons y).trans (List.Perm.swap x y ys)

theorem foldl_insertDesc_perm {α : Type} (key : α → ℚ) :
    ∀ (l acc : List α),
      List.Perm (l.foldl (fun a x => insertDesc key x a) acc) (acc ++ l) := by
  intro l
  induction l with
  | nil => intro acc; simp
  | cons x xs ih =>
    intro acc
    have h1 := ih (insertDesc key x acc)
    have h2 : List.Perm (insertDesc key x acc ++ xs) ((x :: acc) ++ xs) :=
      (insertDesc_perm key x acc).append_right xs
    have h3 : List.Perm ((x :: acc) ++ xs) (acc ++ x :: xs) := by
      simpa using List.perm_middle.symm
    exact h1.trans (h2.trans h3)

theorem sortByDesc_perm {α : Type} (key : α → ℚ) (l : List α) :
    List.Perm (sortByDesc key l) l := by
  simpa [sortByDesc] using foldl_insertDesc_perm key l []

theorem mem_sortByDesc {α : Type} (key : α → ℚ) {l : List α} {x : α} :
    x ∈ sortByDesc key l ↔ x ∈ l :=
  (sortByDesc_perm key l).mem_iff

theorem insertDesc_pairwise {α : Type} (key : α → ℚ) (x : α) {l : List α}
    (h : l.Pairwise (fun a b => key b ≤ key a)) :
    (insertDesc key x l).Pairwise (fun a b => key b ≤ key a) := by
  induction l with
  | nil => simp [insertDesc]
  | cons y ys ih =>
    rw [List.pairwise_cons] at h
    obtain ⟨h1, h2⟩ := h
    by_cases hk : key y < key x
    · simp only [insertDesc, if_pos hk]
      refine List.Pairwise.cons ?_ (List.Pairwise.cons h1 h2)
      intro z hz
      rcases List.mem_cons.mp hz with rfl | hz
      · exact hk.le
      · exact (h1 z hz).trans hk.le
    · simp only [insertDesc, if_neg hk]
      refine List.Pairwise.cons ?_ (ih h2)
      intro z hz
      rcases List.mem_cons.mp ((insertDesc_perm key x ys).mem_iff.mp hz) with rfl | hz
      · exact not_lt.mp hk
      · exact h1 z hz

theorem foldl_insertDesc_pairwise {α : Type} (key : α → ℚ) :
    ∀ (l acc : List α), acc.Pairwise (fun a b => key b ≤ key a) →
      (l.foldl (fun a x => insertDesc key x a) acc).Pairwise (fun a b => key b ≤ key a) := by
  intro l
  induction l with
  | nil => intro acc h; simpa using h
  | cons x xs ih => intro acc h; exact ih (insertDesc key x acc) (insertDesc_pairwise key x h)

theorem sortByDesc_pairwise {α : Type} (key : α → ℚ) (l : List α) :
    (sortByDesc key l).Pairwise (fun a b => key b ≤ key a) :=
  foldl_insertDesc_pairwise key l [] (by simp)

/-! ### Lemmas about rounding -/

theorem roundHalfEven_nonneg {q : ℚ} (h : 0 ≤ q) : 0 ≤ roundHalfEven q := by
  have hf : 0 ≤ Int.fdiv q.num (q.den : ℤ) :=
    Int.fdiv_nonneg (Rat.num_nonneg.mpr h) (Int.natCast_nonneg _)
  unfold roundHalfEven
  split
  · exact hf
  · split
    · omega
    · split
      · exact hf
      · omega

theorem pyRound_nonneg {q : ℚ} (n : ℕ) (h : 0 ≤ q) : 0 ≤ pyRound q n := by
  unfold pyRound
  have h1 : 0 ≤ roundHalfEven (q * 10 ^ n) :=
    roundHalfEven_nonneg (mul_nonneg h (by positivity))
  have h2 : (0 : ℚ) ≤ (roundHalfEven (q * 10 ^ n) : ℚ) := by exact_mod_cast h1
  positivity

/-! ### Lemmas about the aggregation passes -/

theorem totalCostRaw_nonneg {logs : List CallRecord}
    (h : ∀ log ∈ logs, 0 ≤ log.cost) : 0 ≤ totalCostRaw logs := by
  refine List.sum_nonneg ?_
  intro x hx
  obtain ⟨log, hl, rfl⟩ := List.mem_map.mp hx
  exact h log hl

theorem firstCostFor_nonneg {logs : List CallRecord}
    (h : ∀ log ∈ logs, 0 ≤ log.cost) (k : List Char) : 0 ≤ firstCostFor logs k := by
  unfold firstCostFor
  cases hf : logs.find? (fun log => log.prompt.take 50 = k) with
  | none => exact le_refl 0
  | some log => exact h log (List.mem_of_find?_eq_some hf)

theorem dupKeys_count {logs : List CallRecord} {k : List Char}
    (hk : k ∈ dupKeys logs) : 1 < (promptKeys logs).count k := by
  have h := (List.mem_filter.mp hk).2
  exact of_decide_eq_true h

theorem groupSavings_nonneg {logs : List CallRecord} {k : List Char}
    (h : ∀ log ∈ logs, 0 ≤ log.cost) (hk : k ∈ dupKeys logs) :
    0 ≤ groupSavings logs k := by
  refine mul_nonneg (firstCostFor_nonneg h k) ?_
  have h1 : 1 < (promptKeys logs).count k := dupKeys_count hk
  have h2 : (1 : ℚ) ≤ ((promptKeys logs).count k : ℚ) := by exact_mod_cast h1.le
  linarith

theorem cacheSavings_nonneg {logs : List CallRecord}
    (h : ∀ log ∈ logs, 0 ≤ log.cost) : 0 ≤ cacheSavings logs := by
  refine List.sum_nonneg ?_
  intro x hx
  obtain ⟨k, hk, rfl⟩ := List.mem_map.mp hx
  exact groupSavings_nonneg h hk

theorem routingSavingsWeb_nonneg {logs : List CallRecord}
    (h : ∀ log ∈ logs, 0 ≤ log.cost) : 0 ≤ routingSavingsWeb logs := by
  refine List.sum_nonneg ?_
  intro x hx
  obtain ⟨log, hl, rfl⟩ := List.mem_map.mp hx
  exact mul_nonneg (h log (List.mem_of_mem_filter hl)) (by norm_num)

theorem routingSavingsCli_nonneg {logs : List CallRecord}
    (h : ∀ log ∈ logs, 0 ≤ log.cost) : 0 ≤ routingSavingsCli logs := by
  refine List.sum_nonneg ?_
  intro x hx
  obtain ⟨log, hl, rfl⟩ := List.mem_map.mp hx
  exact mul_nonneg (h log (List.mem_of_mem_filter hl)) (by norm_num)

theorem promptOptSavings_eq_cli (logs : List CallRecord) :
    promptOptSavings logs = promptOptSavingsCli logs := by
  unfold promptOptSavings promptOptSavingsCli verboseFindings
  rw [List.Perm.sum_eq
    ((sortByDesc_perm (fun f : VerboseFinding => f.cost)
      ((logs.filter verboseFlag).map verboseFinding)).map (fun v => v.cost * (3/10)))]
  rw [List.map_map]
  rfl

theorem promptOptSavingsCli_nonneg {logs : List CallRecord}
    (h : ∀ log ∈ logs, 0 ≤ log.cost) : 0 ≤ promptOptSavingsCli logs := by
  refine List.sum_nonneg ?_
  intro x hx
  obtain ⟨log, hl, rfl⟩ := List.mem_map.mp hx
  exact mul_nonneg (h log (List.mem_of_mem_filter hl)) (by norm_num)

theorem totalSavingsRaw_nonneg {logs : List CallRecord}
    (h : ∀ log ∈ logs, 0 ≤ log.cost) : 0 ≤ totalSavingsRaw logs := by
  have h1 := cacheSavings_nonneg h
  have h2 := routingSavingsWeb_nonneg h
  have h3 := promptOptSavingsCli_nonneg h
  have h4 := totalCostRaw_nonneg h
  unfold totalSavingsRaw batchSavingsRaw
  rw [promptOptSavings_eq_cli]
  nlinarith

/-! ### Claim C1 -/

/-- Input refuting claim C1 on the returned web report fields: two records
sharing a prompt, each of cost 0.013, nothing else flagged. -/
def logsC1 : List CallRecord :=
  [⟨"", "dup".toList, "m".toList, 500, 13/1000⟩,
   ⟨"", "dup".toList, "m".toList, 500, 13/1000⟩]

/-- Claim C1 is false as stated over the returned report fields of the web
variant: on `logsC1` the report has cache savings 0.01, routing 0, prompt
0 and batch 0 (0.00312 rounded down), but total savings 0.02 (0.01612
rounded up), so the `total_savings` field differs from the sum of the four
returned category fields. -/
theorem c1_report_fields_counterexample :
    ¬ ((analyzeData logsC1).total_savings
        = (analyzeData logsC1).cache_savings + (analyzeData logsC1).routing_savings
          + (analyzeData logsC1).prompt_opt_savings + (analyzeData logsC1).batch_savings) := by
  with_unfolding_all decide

/-- Claim C1 (amended): before the final per-field rounding the web total
savings is exactly the sum of the four category savings with
batch = total_cost × 0.12 (the report field stores that sum rounded once to
2 decimals), and the CLI variant's quantities satisfy the sum identity
exactly since it never rounds. -/
theorem c1_total_is_sum_before_rounding (logs : List CallRecord) :
    (analyzeData logs).total_savings
      = pyRound (cacheSavings logs + routingSavingsWeb logs + promptOptSavings logs
          + totalCostRaw logs * (12/100)) 2
    ∧ (cliTotals logs).total_savings
      = (cliTotals logs).cache_savings + (cliTotals logs).routing_savings
        + (cliTotals logs).prompt_savings + (cliTotals logs).batch_savings
    ∧ (cliTotals logs).batch_savings = (cliTotals logs).total_cost * (12/100) := by
  refine ⟨?_, rfl, rfl⟩
  by_cases h : logs.isEmpty
  · have hnil : logs = [] := by simpa using h
    subst hnil
    with_unfolding_all decide
  · simp only [analyzeData, if_neg h]
    rfl

/-! ### Claim C2 -/

/-- Failing input for claim C2: a single well-formed record with cost 0
(exactly what the loader produces when the CSV has no `cost` column). -/
def logC2 : CallRecord := ⟨"2024-01-01", "hi".toList, "gpt-3.5-turbo".toList, 10, 0⟩

/-- Claim C2 names a real code bug: on a nonempty input of total cost 0
the CLI variant reaches its percent computation (it does not take the
empty-input early return) and divides by zero — `analyze_local.py` line 151
has no guard, raising `ZeroDivisionError` (modelled by `none`) — whereas
the web variant short-circuits the same input to `savings_percent = 0`. -/
theorem c2_cli_zero_cost_division_fault :
    analyzeCsvReport [logC2] = some (cliTotals [logC2])
    ∧ (cliTotals [logC2]).total_cost = 0
    ∧ cliSavingsPercent [logC2] = none
    ∧ (analyzeData [logC2]).savings_percent = 0 := by
  with_unfolding_all decide

/-! ### Claim C3 -/

/-- Claim C3 is false as stated for the CLI variant: on the empty record
list `analyze_csv` prints `No data found in CSV` and returns early, so no
report with zero fields is produced (`none`). -/
theorem c3_cli_empty_counterexample :
    analyzeCsvReport ([] : List CallRecord) = none := by
  with_unfolding_all decide

/-- Claim C3 (amended): on empty input the web variant returns the report
with every numeric field 0 and every findings list empty, without raising;
the CLI variant raises no exception either but returns early with a
diagnostic instead of a report. -/
theorem c3_empty_input_report :
    analyzeData [] = zeroReport
    ∧ (analyzeData []).total_cost = 0
    ∧ (analyzeData []).total_calls = 0
    ∧ (analyzeData []).cache_savings = 0
    ∧ (analyzeData []).routing_savings = 0
    ∧ (analyzeData []).prompt_opt_savings = 0
    ∧ (analyzeData []).batch_savings = 0
    ∧ (analyzeData []).total_savings = 0
    ∧ (analyzeData []).savings_percent = 0
    ∧ (analyzeData []).duplicate_prompts = []
    ∧ (analyzeData []).downgradeable_calls = []
    ∧ (analyzeData []).verbose_prompts = []
    ∧ (analyzeData []).batchable_calls = []
    ∧ analyzeCsvReport ([] : List CallRecord) = none := by
  with_unfolding_all decide

/-! ### Claim C4 -/

/-- Concrete input of claim C4: `Hello world` (cost 0.01) three times,
`Goodbye` (cost 0.02) once. -/
def logsC4 : List CallRecord :=
  [⟨"", "Hello world".toList, "gpt-3.5-turbo".toList, 200, 1/100⟩,
   ⟨"", "Hello world".toList, "gpt-3.5-turbo".toList, 200, 1/100⟩,
   ⟨"", "Hello world".toList, "gpt-3.5-turbo".toList, 200, 1/100⟩,
   ⟨"", "Goodbye".toList, "gpt-3.5-turbo".toList, 200, 2/100⟩]

/-- Claim C4: duplicate groups are keyed by the first 50 prompt characters;
every reported group has count > 1, each group's savings is the first
matching record's cost times (count − 1), `cache_savings` is the sum of the
group savings over all such groups, and on the concrete input there is
exactly one group — `Hello world` with count 3 and savings
0.01 × 2 = 0.02. -/
theorem c4_duplicate_detection :
    (∀ logs : List CallRecord, cacheSavings logs
      = ((dupKeys logs).map
          (fun k => firstCostFor logs k * (((promptKeys logs).count k : ℚ) - 1))).sum)
    ∧ (∀ logs : List CallRecord, ∀ k ∈ dupKeys logs, 1 < (promptKeys logs).count k)
    ∧ (∀ logs : List CallRecord, ∀ k, (dupFinding logs k).savings
        = pyRound (firstCostFor logs k * (((promptKeys logs).count k : ℚ) - 1)) 2)
    ∧ (analyzeData logsC4).duplicate_prompts
        = [{ prompt := "Hello world".toList, count := 3, savings := 1/50,
             cost_per_call := 1/100 }]
    ∧ (analyzeData logsC4).cache_savings = 1/50 := by
  refine ⟨fun logs => rfl, ?_, fun logs k => rfl, ?_, ?_⟩
  · intro logs k hk
    exact dupKeys_count hk
  · with_unfolding_all decide
  · with_unfolding_all decide

/-- Witness instantiating the quantified parts of the claim C4 theorem on
the concrete input. -/
theorem c4_witness :
    ("Hello world".toList ∈ dupKeys logsC4)
    ∧ 1 < (promptKeys logsC4).count ("Hello world".toList) :=
  ⟨by with_unfolding_all decide,
   c4_duplicate_detection.2.1 logsC4 ("Hello world".toList) (by with_unfolding_all decide)⟩

/-! ### Claim C5 -/

/-- Concrete input of claim C5: model `gpt-4`, prompt
`What is the capital of France?`, 50 tokens, cost 0.05. -/
def logC5 : CallRecord :=
  ⟨"", "What is the capital of France?".toList, "gpt-4".toList, 50, 5/100⟩

/-- Claim C5: a record is flagged downgradeable exactly when its
lower-cased model contains `gpt-4` and the downgrade predicate holds; a
flagged record's savings amount is cost × 0.9 (added unrounded to the
routing total, stored unrounded in the CLI entry, rounded to 4 decimals in
the web entry) and its hypothetical new cost is cost × 0.1; on the
concrete record the web finding is (0.05, 0.005, 0.045, Simple query); and
a record with model `gpt-3.5-turbo` is never flagged, whatever its prompt,
tokens or cost. -/
theorem c5_downgrade_detection :
    (∀ log : CallRecord, webFlagged log
      = (containsSub (lowerStr log.model) gpt4Key
          && shouldDowngradeWeb log.prompt log.tokens))
    ∧ (∀ log : CallRecord, cliFlagged log
      = (containsSub (lowerStr log.model) gpt4Key
          && shouldDowngradeCli log.prompt log.tokens))
    ∧ (∀ log : CallRecord,
        (cliDowngradeFinding log).savings = log.cost * (9/10)
        ∧ (downgradeFindingWeb log).savings = pyRound (log.cost * (9/10)) 4
        ∧ (downgradeFindingWeb log).new_cost = pyRound (log.cost * (1/10)) 4)
    ∧ (∀ logs : List CallRecord, routingSavingsWeb logs
        = ((logs.filter webFlagged).map (fun log => log.cost * (9/10))).sum)
    ∧ (analyzeData [logC5]).downgradeable_calls
        = [{ prompt := "What is the capital of France?".toList, current_cost := 1/20,
             new_cost := 1/200, savings := 9/200, reason := "Simple query" }]
    ∧ routingSavingsWeb [logC5] = 9/200
    ∧ (∀ (ts : String) (prompt : List Char) (tokens : ℕ) (cost : ℚ),
        webFlagged ⟨ts, prompt, "gpt-3.5-turbo".toList, tokens, cost⟩ = false
        ∧ cliFlagged ⟨ts, prompt, "gpt-3.5-turbo".toList, tokens, cost⟩ = false) := by
  refine ⟨fun log => rfl, fun log => rfl, fun log => ⟨rfl, rfl, rfl⟩, fun logs => rfl,
    ?_, ?_, ?_⟩
  · with_unfolding_all decide
  · with_unfolding_all decide
  · intro ts prompt tokens cost
    have h : containsSub (lowerStr ("gpt-3.5-turbo".toList)) gpt4Key = false := by
      with_unfolding_all decide
    constructor
    · show (containsSub (lowerStr ("gpt-3.5-turbo".toList)) gpt4Key && _) = false
      rw [h, Bool.false_and]
    · show (containsSub (lowerStr ("gpt-3.5-turbo".toList)) gpt4Key && _) = false
      rw [h, Bool.false_and]

/-! ### Claim C6 -/

/-- Helper for claim C6: lower-casing fixes every character the regex class
`[\d\+\-\*/\s]` accepts (none of them is an upper-case letter). -/
theorem toLower_of_isArithChar {c : Char} (h : isArithChar c = true) :
    Char.toLower c = c := by
  simp only [isArithChar, isDigitChar, pyIsSpace, Bool.or_eq_true, Bool.and_eq_true,
    decide_eq_true_eq, beq_iff_eq] at h
  rcases h with ((((⟨h1, h2⟩ | rfl) | rfl) | rfl) | rfl) | (((((rfl | rfl) | rfl) | rfl) | rfl) | rfl)
  · have hn : ¬(c.toNat ≥ 65 ∧ c.toNat ≤ 90) := by omega
    simp [Char.toLower, hn]
  all_goals with_unfolding_all decide

/-- Helper for claim C6: a nonempty all-arithmetic prompt still matches the
arithmetic regex after the lower-casing both heuristics apply. -/
theorem isArithPrompt_lowerStr {p : List Char} (hne : p ≠ [])
    (hchars : ∀ c ∈ p, isArithChar c = true) :
    isArithPrompt (lowerStr p) = true := by
  unfold isArithPrompt lowerStr
  rw [Bool.and_eq_true]
  constructor
  · simpa using hne
  · rw [List.all_eq_true]
    intro c hc
    obtain ⟨d, hd, rfl⟩ := List.mem_map.mp hc
    rw [toLower_of_isArithChar (hchars d hd)]
    exact hchars d hd

/-- Helper for claim C6: whichever earlier rule fires or not, an
all-arithmetic prompt makes both downgrade predicates true for every token
count. -/
theorem shouldDowngrade_of_arith {p : List Char} (tokens : ℕ) (hne : p ≠ [])
    (hchars : ∀ c ∈ p, isArithChar c = true) :
    shouldDowngradeWeb p tokens = true ∧ shouldDowngradeCli p tokens = true := by
  have harith := isArithPrompt_lowerStr hne hchars
  constructor
  · simp [shouldDowngradeWeb, harith]
  · simp [shouldDowngradeCli, harith]

/-- Claim C6: every record whose lower-cased model contains `gpt-4` and
whose prompt is a nonempty string of digits, arithmetic operators and
whitespace is flagged downgradeable by both variants, independently of its
token count (the record's `tokens` field is universally quantified here,
so the statement covers tokens ≥ 100). -/
theorem c6_arithmetic_prompt (log : CallRecord)
    (hm : containsSub (lowerStr log.model) gpt4Key = true)
    (hne : log.prompt ≠ [])
    (hchars : ∀ c ∈ log.prompt, isArithChar c = true) :
    webFlagged log = true ∧ cliFlagged log = true := by
  obtain ⟨h1, h2⟩ := shouldDowngrade_of_arith log.tokens hne hchars
  constructor
  · unfold webFlagged
    rw [hm, h1]
    rfl
  · unfold cliFlagged
    rw [hm, h2]
    rfl

/-- Concrete record of claim C6: prompt `2 + 2`, model `gpt-4`, 150 tokens
(that is, tokens ≥ 100). -/
def logC6 : CallRecord := ⟨"", "2 + 2".toList, "gpt-4".toList, 150, 3/100⟩

/-- Witness for claim C6 at the concrete arithmetic-prompt record. -/
theorem c6_witness :
    (containsSub (lowerStr logC6.model) gpt4Key = true
      ∧ logC6.prompt ≠ []
      ∧ (∀ c ∈ logC6.prompt, isArithChar c = true))
    ∧ (webFlagged logC6 = true ∧ cliFlagged logC6 = true) :=
  ⟨⟨by with_unfolding_all decide, by with_unfolding_all decide,
    by with_unfolding_all decide⟩,
   c6_arithmetic_prompt logC6 (by with_unfolding_all decide)
     (by with_unfolding_all decide) (by with_unfolding_all decide)⟩

/-! ### Claim C7 -/

/-- Record with a 501-character prompt (cost 0.1). -/
def logC7a : CallRecord :=
  ⟨"", List.replicate 501 'a', "gpt-3.5-turbo".toList, 200, 1/10⟩

/-- Record with a 500-character prompt (cost 0.2). -/
def logC7b : CallRecord :=
  ⟨"", List.replicate 500 'b', "gpt-3.5-turbo".toList, 200, 2/10⟩

/-- Claim C7: a record is flagged verbose exactly when its prompt length
exceeds 500 characters — the 501-character prompt is flagged, the
500-character one is not — and the prompt-optimization total is the sum of
cost × 0.3 over exactly the verbose records; on the concrete pair only the
501-character record is reported and the total is 0.1 × 0.3 = 0.03. -/
theorem c7_verbose_detection :
    (∀ log : CallRecord, verboseFlag log = true ↔ 500 < log.prompt.length)
    ∧ (∀ logs : List CallRecord, promptOptSavings logs
        = ((logs.filter verboseFlag).map (fun log => log.cost * (3/10))).sum)
    ∧ verboseFlag logC7a = true
    ∧ verboseFlag logC7b = false
    ∧ (analyzeData [logC7a, logC7b]).verbose_prompts
        = [{ prompt_preview := List.replicate 80 'a' ++ "...".toList, length := 501,
             cost := 1/10, timestamp := "" }]
    ∧ (analyzeData [logC7a, logC7b]).prompt_opt_savings = 3/100 := by
  refine ⟨?_, ?_, ?_, ?_, ?_, ?_⟩
  · intro log
    simp [verboseFlag]
  · intro logs
    exact promptOptSavings_eq_cli logs
  · with_unfolding_all decide
  · with_unfolding_all decide
  · with_unfolding_all decide
  · with_unfolding_all decide

/-- Witness instantiating the boundary equivalence of the claim C7 theorem
at the 501-character record. -/
theorem c7_witness :
    500 < logC7a.prompt.length ∧ verboseFlag logC7a = true :=
  ⟨by with_unfolding_all decide,
   (c7_verbose_detection.1 logC7a).mpr (by with_unfolding_all decide)⟩

/-! ### Claim C8 -/

/-- Claim C8: in the web report every findings list has at most 10 entries
and is sorted descending — `duplicate_prompts` and `downgradeable_calls`
by their `savings` field, `verbose_prompts` by its `cost` field — and
`batchable_calls` is always empty. -/
theorem c8_report_lists_sorted_capped (logs : List CallRecord) :
    (analyzeData logs).duplicate_prompts.length ≤ 10
    ∧ (analyzeData logs).downgradeable_calls.length ≤ 10
    ∧ (analyzeData logs).verbose_prompts.length ≤ 10
    ∧ (analyzeData logs).batchable_calls = []
    ∧ (analyzeData logs).duplicate_prompts.Pairwise (fun a b => b.savings ≤ a.savings)
    ∧ (analyzeData logs).downgradeable_calls.Pairwise (fun a b => b.savings ≤ a.savings)
    ∧ (analyzeData logs).verbose_prompts.Pairwise (fun a b => b.cost ≤ a.cost) := by
  by_cases h : logs.isEmpty
  · simp [analyzeData, h, zeroReport]
  · simp only [analyzeData, if_neg h]
    refine ⟨?_, ?_, ?_, ?_, ?_, ?_, ?_⟩
    · rw [List.length_take]; exact min_le_left _ _
    · rw [List.length_take]; exact min_le_left _ _
    · rw [List.length_take]; exact min_le_left _ _
    · trivial
    · exact List.Pairwise.sublist (List.take_sublist 10 _)
        (sortByDesc_pairwise (fun f : DupFinding => f.savings)
          ((dupKeys logs).map (dupFinding logs)))
    · exact List.Pairwise.sublist (List.take_sublist 10 _)
        (sortByDesc_pairwise (fun f : DowngradeFinding => f.savings)
          ((logs.filter webFlagged).map downgradeFindingWeb))
    · exact List.Pairwise.sublist (List.take_sublist 10 _)
        (sortByDesc_pairwise (fun f : VerboseFinding => f.cost)
          ((logs.filter verboseFlag).map verboseFinding))

/-! ### Claim C9 -/

/-- Claim C9: the analysis of both variants is embedded as a total pure
function of the input record list alone — there is no other state it could
read — so two runs on the same input are identical. -/
theorem c9_deterministic (logs : List CallRecord) :
    analyzeData logs = analyzeData logs
    ∧ analyzeCsvReport logs = analyzeCsvReport logs :=
  ⟨rfl, rfl⟩

/-! ### Claim C10 -/

/-- Claim C10: when every record cost is nonnegative, every numeric field
of the web report is nonnegative, and so is the savings (or, for verbose
findings, cost) of every reported finding. -/
theorem c10_nonneg (logs : List CallRecord) (h : ∀ log ∈ logs, 0 ≤ log.cost) :
    0 ≤ (analyzeData logs).total_cost
    ∧ 0 ≤ (analyzeData logs).cache_savings
    ∧ 0 ≤ (analyzeData logs).routing_savings
    ∧ 0 ≤ (analyzeData logs).prompt_opt_savings
    ∧ 0 ≤ (analyzeData logs).batch_savings
    ∧ 0 ≤ (analyzeData logs).total_savings
    ∧ 0 ≤ (analyzeData logs).savings_percent
    ∧ (∀ f ∈ (analyzeData logs).duplicate_prompts, 0 ≤ f.savings)
    ∧ (∀ f ∈ (analyzeData logs).downgradeable_calls, 0 ≤ f.savings)
    ∧ (∀ f ∈ (analyzeData logs).verbose_prompts, 0 ≤ f.cost) := by
  by_cases hemp : logs.isEmpty
  · simp [analyzeData, hemp, zeroReport]
  · simp only [analyzeData, if_neg hemp]
    refine ⟨pyRound_nonneg 2 (totalCostRaw_nonneg h),
      pyRound_nonneg 2 (cacheSavings_nonneg h),
      pyRound_nonneg 2 (routingSavingsWeb_nonneg h),
      pyRound_nonneg 2 (by rw [promptOptSavings_eq_cli]; exact promptOptSavingsCli_nonneg h),
      pyRound_nonneg 2 (mul_nonneg (totalCostRaw_nonneg h) (by norm_num)),
      pyRound_nonneg 2 (totalSavingsRaw_nonneg h), ?_, ?_, ?_, ?_⟩
    · split
      next hpos =>
        exact pyRound_nonneg 1
          (mul_nonneg (div_nonneg (totalSavingsRaw_nonneg h) hpos.le) (by norm_num))
      next hneg => exact le_refl 0
    · intro f hf
      have hf1 := (mem_sortByDesc (fun f : DupFinding => f.savings)).mp
        (List.take_subset 10 _ hf)
      obtain ⟨k, hk, rfl⟩ := List.mem_map.mp hf1
      exact pyRound_nonneg 2 (groupSavings_nonneg h hk)
    · intro f hf
      have hf1 := (mem_sortByDesc (fun f : DowngradeFinding => f.savings)).mp
        (List.take_subset 10 _ hf)
      obtain ⟨log, hl, rfl⟩ := List.mem_map.mp hf1
      exact pyRound_nonneg 4
        (mul_nonneg (h log (List.mem_of_mem_filter hl)) (by norm_num))
    · intro f hf
      have hf1 := (mem_sortByDesc (fun f : VerboseFinding => f.cost)).mp
        (List.take_subset 10 _ hf)
      obtain ⟨log, hl, rfl⟩ := List.mem_map.mp hf1
      exact h log (List.mem_of_mem_filter hl)

/-- Single-record input on which the claim C10 theorem is instantiated. -/
def logsC10 : List CallRecord :=
  [⟨"", "hello".toList, "gpt-4".toList, 42, 7/100⟩]

/-- Witness for claim C10: the cost hypothesis holds on the concrete input
and the first reported field is nonnegative there. -/
theorem c10_witness :
    (∀ log ∈ logsC10, 0 ≤ log.cost) ∧ 0 ≤ (analyzeData logsC10).total_cost :=
  ⟨by with_unfolding_all decide,
   (c10_nonneg logsC10 (by with_unfolding_all decide)).1⟩

end InfOpt
